import Mathlib

/-!
Verification of the deplauncher game-engine simulation core.

The repository contains near-duplicate engine variants; the claims cite
three of them: `game_engine_18.c` (classic edition), `game_engine_1.8.c`
(web classic edition) and `game_engine_1.12.c` (enhanced edition).  This
file gives a shallow embedding of the cited data model and operations:
C floats are modelled as rationals, fixed arrays with a live count are
modelled as lists of the live prefix, and fallible operations return
`Option`.  A float division whose denominator may be zero (which would
produce NaN in the C code) is modelled by `safeDiv`, returning `none`
exactly when the denominator is zero.
-/

namespace Deplauncher

/-- Entity of `game_engine_18.c` (struct `Entity`, lines 19-27).
Floats are rationals; `name` is the C char array as a string. -/
structure Entity18 where
  x : ℚ
  y : ℚ
  z : ℚ
  velocity_x : ℚ
  velocity_y : ℚ
  rotation : ℚ
  texture_id : ℤ
  active : Bool
  health : ℤ
  name : String

/-- Entity of `game_engine_1.8.c` (struct `WebEntity`, lines 42-52). -/
structure WebEntity8 where
  px : ℚ
  py : ℚ
  vx : ℚ
  vy : ℚ
  rotation : ℚ
  health : ℤ
  max_health : ℤ
  texture_id : ℤ
  active : Bool
  name : String
  tag : String

/-- `MAX_ENTITIES` of `game_engine_18.c`. -/
def MAX_ENTITIES_18 : ℕ := 1000

/-- `MAX_ENTITIES` of `game_engine_1.8.c`. -/
def MAX_ENTITIES_8 : ℕ := 800

/-- The entity written by `create_entity` in `game_engine_18.c`
(lines 144-152): position set, velocities/rotation zero, active,
health 100; the name stays zeroed (callers fill it in afterwards). -/
def mkEntity18 (x y : ℚ) (texture_id : ℤ) : Entity18 :=
  { x := x, y := y, z := 0, velocity_x := 0, velocity_y := 0,
    rotation := 0, texture_id := texture_id, active := true,
    health := 100, name := "" }

/-- `create_entity` of `game_engine_18.c` (lines 138-155): if the store
is full it returns NULL and mutates nothing, otherwise it appends a
fresh entity at the live count.  The state is the list of live slots;
the returned `Option` is the entity handle. -/
def create_entity (es : List Entity18) (x y : ℚ) (texture_id : ℤ) :
    Option Entity18 × List Entity18 :=
  if es.length ≥ MAX_ENTITIES_18 then (none, es)
  else (some (mkEntity18 x y texture_id), es ++ [mkEntity18 x y texture_id])

/-- The entity written by `create_web_entity` in `game_engine_1.8.c`
(lines 256-265): position set, zero velocity and rotation, active,
health 100/100, the given name, tag `"Default"`. -/
def mkWebEntity8 (px py : ℚ) (texture_id : ℤ) (name : String) : WebEntity8 :=
  { px := px, py := py, vx := 0, vy := 0, rotation := 0,
    health := 100, max_health := 100, texture_id := texture_id,
    active := true, name := name, tag := "Default" }

/-- `create_web_entity` of `game_engine_1.8.c` (lines 249-268): NULL on
a full store (count already at `MAX_ENTITIES`), otherwise append. -/
def create_web_entity (es : List WebEntity8) (px py : ℚ) (texture_id : ℤ)
    (name : String) : Option WebEntity8 × List WebEntity8 :=
  if es.length ≥ MAX_ENTITIES_8 then (none, es)
  else (some (mkWebEntity8 px py texture_id name),
        es ++ [mkWebEntity8 px py texture_id name])

/-- `cleanup_inactive_entities` of `game_engine_18.c` (lines 248-260):
the write-index compaction loop, keeping entities with `active` set, in
order, and setting the count to the number of survivors.  The foldl
accumulator is the prefix already written. -/
def cleanup_inactive_entities (es : List Entity18) : List Entity18 :=
  es.foldl (fun acc e => if e.active then acc ++ [e] else acc) []

/-- `cleanup_web_entities` of `game_engine_1.8.c` (lines 530-542): the
same write-index loop, but an entity survives only if it is `active`
AND has `health > 0`. -/
def cleanup_web_entities (es : List WebEntity8) : List WebEntity8 :=
  es.foldl (fun acc e => if e.active = true ∧ 0 < e.health then acc ++ [e] else acc) []

/-- `web_clamp` of `game_engine_1.8.c` (lines 164-166). -/
def web_clamp (value min_val max_val : ℚ) : ℚ :=
  if value < min_val then min_val
  else if value > max_val then max_val else value

/-- Delta-time computation of `update_web_game_logic` in
`game_engine_1.12.c` (lines 625-629): the raw gap in seconds scaled by
the time scale, then capped above at 0.033 s. -/
def compute_delta_112 (current_time last_frame_time time_scale : ℚ) : ℚ :=
  let delta_time := (current_time - last_frame_time) / 1000 * time_scale
  if delta_time > 33/1000 then 33/1000 else delta_time

/-- Delta-time computation of `update_web_game_logic` in
`game_engine_1.8.c` (lines 609-610): the rolling average frame time in
seconds scaled by the time scale, clamped into [0, 0.033]. -/
def compute_delta_18 (average_frame_time_ms time_scale : ℚ) : ℚ :=
  web_clamp (average_frame_time_ms / 1000 * time_scale) 0 (33/1000)

/-- `update_web_entity_physics` of `game_engine_1.8.c` (lines 284-303):
velocity applied to position, rotation advanced and wrapped, boundary
wrapping against the 800x600 canvas with a 32-unit margin, then the
multiplicative friction 0.92 on the velocity.  Inactive entities are
returned untouched (the early-return guard). -/
def update_web_entity_physics (e : WebEntity8) (delta_time : ℚ) : WebEntity8 :=
  if e.active = false then e
  else
    let px := e.px + e.vx * delta_time
    let py := e.py + e.vy * delta_time
    let rot0 := e.rotation + delta_time * 60
    let rot := if rot0 > 360 then rot0 - 360 else rot0
    let px1 := if px < -32 then 800 + 32 else px
    let px2 := if px1 > 800 + 32 then -32 else px1
    let py1 := if py < -32 then 600 + 32 else py
    let py2 := if py1 > 600 + 32 then -32 else py1
    { e with px := px2, py := py2, rotation := rot,
             vx := e.vx * (92/100), vy := e.vy * (92/100) }

/-- Quality-gated system sequencing of `update_web_game_logic` in
`game_engine_1.8.c` (lines 615-635), with the subsystem bodies
abstracted: the per-entity physics pass runs unconditionally, the AI
pass and the collision system run only at `quality_level >= 1`, and the
particle system only at `quality_level >= 2`. -/
def update_systems_18 {α : Type} (phys ai coll part : α → α) (quality_level : ℤ)
    (s : α) : α :=
  let s1 := phys s
  let s2 := if quality_level ≥ 1 then ai s1 else s1
  let s3 := if quality_level ≥ 1 then coll s2 else s2
  if quality_level ≥ 2 then part s3 else s3

/-- Quality-gated system sequencing of `update_web_game_logic` in
`game_engine_1.12.c` (lines 645-653), with the subsystem bodies
abstracted: the physics system and the collision system both run only
at `quality_level >= 1`, the particle system only at
`quality_level >= 2`. -/
def update_systems_112 {α : Type} (phys coll part : α → α) (quality_level : ℤ)
    (s : α) : α :=
  let s1 := if quality_level ≥ 1 then coll (phys s) else s
  if quality_level ≥ 2 then part s1 else s1

/-- `update_adaptive_quality` of `game_engine_1.12.c` (lines 244-273),
with the frame budget `g_frame_budget_ms = 16.67`: returns the new
`(quality_level, cooldown)` pair.  Disabled adaptive quality is a
no-op; a positive cooldown is only decremented; over budget by 20%
lowers the level by one (cooldown 60); under 70% of budget raises it by
one (cooldown 180). -/
def update_adaptive_quality (adaptive_quality : Bool)
    (cooldown quality_level : ℤ) (frame_time_ms : ℚ) : ℤ × ℤ :=
  if adaptive_quality = false then (quality_level, cooldown)
  else if 0 < cooldown then (quality_level, cooldown - 1)
  else if frame_time_ms > (1667/100) * (12/10) then
    (if 0 < quality_level then (quality_level - 1, 60) else (quality_level, cooldown))
  else if frame_time_ms < (1667/100) * (7/10) then
    (if quality_level < 2 then (quality_level + 1, 180) else (quality_level, cooldown))
  else (quality_level, cooldown)

/-- Float division as the C code performs it: `none` models the NaN (or
infinity) produced when the denominator is zero. -/
def safeDiv (a b : ℚ) : Option ℚ :=
  if b = 0 then none else some (a / b)

/-- The per-pair body of `collision_detection` in `game_engine_18.c`
(lines 227-243).  `dist` stands for `sqrtf(dx*dx + dy*dy)` (callers
supply a nonnegative square root of the squared distance).  Inside the
`distance < 32` threshold the code first scores 10 when entity `a` is
named `"Player"`, then adds the bounce `(dx/distance)*100` to `a` and
subtracts it from `b`; the divisions go through `safeDiv`, so the
result is `none` exactly when the code would divide by a zero distance.
The `ℤ` component is the score increment. -/
def collision_response_18 (a b : Entity18) (dist : ℚ) :
    Option (Entity18 × Entity18 × ℤ) :=
  if dist < 32 then
    let score_inc : ℤ := if a.name = "Player" then 10 else 0
    match safeDiv (a.x - b.x) dist, safeDiv (a.y - b.y) dist with
    | some nx, some ny =>
        some ({ a with velocity_x := a.velocity_x + nx * 100,
                       velocity_y := a.velocity_y + ny * 100 },
              { b with velocity_x := b.velocity_x - nx * 100,
                       velocity_y := b.velocity_y - ny * 100 },
              score_inc)
    | _, _ => none
  else some (a, b, 0)

/-- The guarded per-pair response of `update_web_collision_system` in
`game_engine_1.8.c` (lines 405-441), for a pair already inside the
squared-radius broad test.  `dist` stands for `sqrtf(dist_sq)`.  When
`dist > 0.1` the code normalizes the center difference, pushes each
entity half the overlap (`COLLISION_RADIUS = 28` minus `dist`) apart,
applies the bounce impulse of magnitude 120 along the axis, and scores
10 when the tag of either entity is `"Player"`; otherwise (the epsilon
fallback) nothing at all happens to the pair.  The `ℤ` component is the
score increment. -/
def resolve_pair_web8 (a b : WebEntity8) (dist : ℚ) :
    WebEntity8 × WebEntity8 × ℤ :=
  if dist > 1/10 then
    let dirx := (a.px - b.px) * (1 / dist)
    let diry := (a.py - b.py) * (1 / dist)
    let overlap := 28 - dist
    let sx := dirx * (overlap * (1/2))
    let sy := diry * (overlap * (1/2))
    ({ a with px := a.px + sx, py := a.py + sy,
              vx := a.vx + dirx * 120, vy := a.vy + diry * 120 },
     { b with px := b.px - sx, py := b.py - sy,
              vx := b.vx - dirx * 120, vy := b.vy - diry * 120 },
     if a.tag = "Player" ∨ b.tag = "Player" then 10 else 0)
  else (a, b, 0)

/-- Particle of `game_engine_1.12.c` (struct `WebParticle`,
lines 97-104); `c3` is the alpha channel `color[3]`. -/
structure WebParticle where
  px : ℚ
  py : ℚ
  pz : ℚ
  vx : ℚ
  vy : ℚ
  vz : ℚ
  c0 : ℚ
  c1 : ℚ
  c2 : ℚ
  c3 : ℚ
  life : ℚ
  size : ℚ
  active : Bool

/-- The per-particle body of `update_web_particle_system` in
`game_engine_1.12.c` (lines 389-410), with the world gravity
`(0, -490, 0)` set by `init_web_game_engine`: inactive particles are
skipped; otherwise gravity is applied to the velocity, the position is
integrated with the updated velocity, life is decremented, and a
particle whose life drops to `<= 0` is deactivated immediately with no
fade or shrink applied; surviving particles get alpha `life / 2` and
size decayed by 0.99. -/
def update_web_particle_step (delta_time : ℚ) (p : WebParticle) : WebParticle :=
  if p.active = false then p
  else
    let vx := p.vx + 0 * delta_time
    let vy := p.vy + (-490) * delta_time
    let vz := p.vz + 0 * delta_time
    let px := p.px + vx * delta_time
    let py := p.py + vy * delta_time
    let pz := p.pz + vz * delta_time
    let life := p.life - delta_time
    if life ≤ 0 then
      { p with vx := vx, vy := vy, vz := vz, px := px, py := py, pz := pz,
               life := life, active := false }
    else
      { p with vx := vx, vy := vy, vz := vz, px := px, py := py, pz := pz,
               life := life, c3 := life / 2, size := p.size * (99/100) }

/-- Performance-metrics fields of `game_engine_1.8.c` read by the
snapshot accessors (struct `WebPerformanceMetrics`, lines 55-64). -/
structure WebPerformanceMetricsR where
  current_fps : ℚ
  average_frame_time_ms : ℚ
  quality_level : ℤ
  adaptive_quality : Bool

/-- The game-state fields of `game_engine_1.8.c` read by the snapshot
accessors (struct `WebGameState`, lines 88-110); the live entity and
particle arrays are the lists, so the stored counts are their
lengths. -/
structure WebGameStateR where
  entities : List WebEntity8
  particles : List WebParticle
  score : ℤ
  level : ℤ
  paused : Bool
  time_scale : ℚ
  performance : WebPerformanceMetricsR

/-- `wasm_get_web_score` of `game_engine_1.8.c` (lines 701-704):
`none` models the NULL `g_web_game_state`. -/
def wasm_get_web_score : Option WebGameStateR → ℤ
  | none => 0
  | some g => g.score

/-- `wasm_get_web_entity_count` of `game_engine_1.8.c` (lines 706-709). -/
def wasm_get_web_entity_count : Option WebGameStateR → ℤ
  | none => 0
  | some g => g.entities.length

/-- `wasm_get_web_particle_count` of `game_engine_1.8.c` (lines 711-714). -/
def wasm_get_web_particle_count : Option WebGameStateR → ℤ
  | none => 0
  | some g => g.particles.length

/-- `wasm_get_web_fps` of `game_engine_1.8.c` (lines 716-719). -/
def wasm_get_web_fps : Option WebGameStateR → ℚ
  | none => 0
  | some g => g.performance.current_fps

/-- `wasm_get_web_frame_time` of `game_engine_1.8.c` (lines 721-724). -/
def wasm_get_web_frame_time : Option WebGameStateR → ℚ
  | none => 0
  | some g => g.performance.average_frame_time_ms

/-- `wasm_get_web_quality_level` of `game_engine_1.8.c`
(lines 726-729): the NULL-state fallback is 2, the same value
`init_web_game_engine` installs as the starting quality. -/
def wasm_get_web_quality_level : Option WebGameStateR → ℤ
  | none => 2
  | some g => g.performance.quality_level

/-- State fields of `game_engine_18.c` read by its snapshot accessors
(struct `GameState`, lines 30-39). -/
structure GameState18R where
  entities : List Entity18
  score : ℤ
  paused : Bool
  camera_x : ℚ
  camera_y : ℚ

/-- `wasm_get_score` of `game_engine_18.c` (lines 77-80). -/
def wasm_get_score_18 : Option GameState18R → ℤ
  | none => 0
  | some g => g.score

/-- `wasm_get_entity_count` of `game_engine_18.c` (lines 82-85). -/
def wasm_get_entity_count_18 : Option GameState18R → ℤ
  | none => 0
  | some g => g.entities.length

/-- `wasm_get_score` of `game_engine_1.12.c` (lines 730-733). -/
def wasm_get_score_112 (score : Option ℤ) : ℤ :=
  match score with
  | none => 0
  | some s => s

/-! Concrete inputs used by the witness and counterexample theorems. -/

/-- An entity that is `active` but has `health = 0`: the 1.8 compaction
drops it although it is active. -/
def activeZeroHealth : WebEntity8 :=
  { px := 0, py := 0, vx := 0, vy := 0, rotation := 0, health := 0,
    max_health := 100, texture_id := 0, active := true, name := "A",
    tag := "Default" }

/-- A player-named entity of the 18.c variant at (100, 100). -/
def nanPlayer : Entity18 := { mkEntity18 100 100 0 with name := "Player" }

/-- A second 18.c entity at exactly the same position (100, 100). -/
def nanObject : Entity18 := { mkEntity18 100 100 1 with name := "Object_1" }

/-- A non-player 18.c entity at the origin. -/
def pairFirstObject : Entity18 := { mkEntity18 0 0 1 with name := "Object_1" }

/-- A player-named 18.c entity at (3, 4), distance 5 from the origin. -/
def pairSecondPlayer : Entity18 := { mkEntity18 3 4 0 with name := "Player" }

/-- A 1.8 web entity tagged `"Player"` at the origin. -/
def taggedPlayer : WebEntity8 := { mkWebEntity8 0 0 0 "P" with tag := "Player" }

/-- A default-tagged 1.8 web entity at (3, 4). -/
def taggedDefault : WebEntity8 := mkWebEntity8 3 4 1 "E"

/-- A player-named 18.c entity at the origin. -/
def firstPlayer : Entity18 := { mkEntity18 0 0 0 with name := "Player" }

/-- A non-player 18.c entity at (3, 4). -/
def secondObject : Entity18 := { mkEntity18 3 4 1 with name := "Object_0" }

/-- An active particle with half a second of life left. -/
def shortLivedParticle : WebParticle :=
  { px := 0, py := 0, pz := 0, vx := 0, vy := 0, vz := 0,
    c0 := 1, c1 := 1, c2 := 1, c3 := 1, life := 1/2, size := 3,
    active := true }

/-- A 1.8 web entity at the origin, used for the midpoint witness. -/
def midpointA : WebEntity8 := mkWebEntity8 0 0 0 "A"

/-- A 1.8 web entity at (3, 4), used for the midpoint witness. -/
def midpointB : WebEntity8 := mkWebEntity8 3 4 1 "B"

/-! Helper lemmas shared by the compaction theorems. -/

/-- The write-index loop of `cleanup_inactive_entities` is the filter
on `active`, appended after the prefix already written. -/
theorem cleanup18_foldl_eq_filter (es : List Entity18) :
    ∀ acc : List Entity18,
      es.foldl (fun acc e => if e.active then acc ++ [e] else acc) acc
        = acc ++ es.filter (fun e => e.active) := by
  induction es with
  | nil => intro acc; simp
  | cons e es ih =>
      intro acc
      cases h : e.active <;>
        simp [List.foldl_cons, h, ih, List.filter_cons]

/-- The write-index loop of `cleanup_web_entities` is the filter on
`active && 0 < health`, appended after the prefix already written. -/
theorem cleanup8_foldl_eq_filter (ws : List WebEntity8) :
    ∀ acc : List WebEntity8,
      ws.foldl (fun acc e => if e.active = true ∧ 0 < e.health then acc ++ [e] else acc) acc
        = acc ++ ws.filter (fun e => e.active && decide (0 < e.health)) := by
  induction ws with
  | nil => intro acc; simp
  | cons e es ih =>
      intro acc
      by_cases h : e.active = true ∧ 0 < e.health
      · simp [List.foldl_cons, h, ih, List.filter_cons, h.1, h.2]
      · have hb : (e.active && decide (0 < e.health)) = false := by
          cases ha : e.active with
          | false => simp
          | true =>
              simp [ha] at h ⊢
              omega
        simp [List.foldl_cons, if_neg h, ih, List.filter_cons, hb]

/-! Claim theorems. -/

/-- Claim C1: creation at capacity returns a NULL handle and leaves the
stored count and every previously created entity unchanged, and the
count never exceeds the capacity (both the 18.c `create_entity` store,
capacity 1000, and the 1.8 `create_web_entity` store, capacity 800). -/
theorem create_entity_capacity (es : List Entity18) (ws : List WebEntity8)
    (x y : ℚ) (t : ℤ) (nm : String) :
    (es.length ≥ MAX_ENTITIES_18 → create_entity es x y t = (none, es)) ∧
    (ws.length ≥ MAX_ENTITIES_8 → create_web_entity ws x y t nm = (none, ws)) ∧
    (es.length ≤ MAX_ENTITIES_18 → (create_entity es x y t).2.length ≤ MAX_ENTITIES_18) ∧
    (ws.length ≤ MAX_ENTITIES_8 → (create_web_entity ws x y t nm).2.length ≤ MAX_ENTITIES_8) := by
  refine ⟨fun h => by simp only [create_entity, if_pos h],
          fun h => by simp only [create_web_entity, if_pos h], ?_, ?_⟩
  · intro h
    by_cases hfull : es.length ≥ MAX_ENTITIES_18
    · simp only [create_entity, if_pos hfull]
      exact h
    · simp only [create_entity, if_neg hfull]
      simp only [not_le] at hfull
      simp only [List.length_append, List.length_cons, List.length_nil]
      omega
  · intro h
    by_cases hfull : ws.length ≥ MAX_ENTITIES_8
    · simp only [create_web_entity, if_pos hfull]
      exact h
    · simp only [create_web_entity, if_neg hfull]
      simp only [not_le] at hfull
      simp only [List.length_append, List.length_cons, List.length_nil]
      omega

/-- Witness for C1 at full stores of capacity 1000 and 800. -/
theorem create_entity_capacity_witness :
    create_entity (List.replicate 1000 (mkEntity18 0 0 0)) 0 0 0
        = (none, List.replicate 1000 (mkEntity18 0 0 0)) ∧
    create_web_entity (List.replicate 800 (mkWebEntity8 0 0 0 "E")) 0 0 0 "E"
        = (none, List.replicate 800 (mkWebEntity8 0 0 0 "E")) ∧
    (create_entity (List.replicate 1000 (mkEntity18 0 0 0)) 0 0 0).2.length
        ≤ MAX_ENTITIES_18 := by
  have h := create_entity_capacity (List.replicate 1000 (mkEntity18 0 0 0))
    (List.replicate 800 (mkWebEntity8 0 0 0 "E")) 0 0 0 "E"
  exact ⟨h.1 (by simp only [List.length_replicate, MAX_ENTITIES_18]; exact le_refl _),
         h.2.1 (by simp only [List.length_replicate, MAX_ENTITIES_8]; exact le_refl _),
         h.2.2.1 (by simp only [List.length_replicate, MAX_ENTITIES_18]; exact le_refl _)⟩

/-- Claim C2: the delta-time computed by the tick orchestrator is at
most 0.033 s whatever the timestamp gap (1.12 computes it from the raw
gap, 1.8 from the rolling average, both clamped), and a 5000 ms
timestamp jump yields exactly the clamped 0.033 s, so the per-entity
physics update of such a tick is identical to the update of a clamped
33 ms tick. -/
theorem delta_time_clamped (cur last scale avg t : ℚ) (e : WebEntity8) :
    compute_delta_112 cur last scale ≤ 33/1000 ∧
    compute_delta_18 avg scale ≤ 33/1000 ∧
    compute_delta_112 (t + 5000) t 1 = 33/1000 ∧
    update_web_entity_physics e (compute_delta_112 (t + 5000) t 1)
      = update_web_entity_physics e (33/1000) := by
  have h3 : compute_delta_112 (t + 5000) t 1 = 33/1000 := by
    have harg : (t + 5000 - t) / 1000 * 1 = (5 : ℚ) := by ring
    simp only [compute_delta_112, harg]
    norm_num
  refine ⟨?_, ?_, h3, by rw [h3]⟩
  · simp only [compute_delta_112]
    split_ifs with h
    · exact le_refl _
    · exact le_of_not_lt h
  · simp only [compute_delta_18, web_clamp]
    split_ifs with h1 h2
    · norm_num
    · exact le_refl _
    · exact le_of_not_lt h2

/-- Counterexample to claim C3: the 1.8 compaction drops an entity that
is active but has zero health, so the compacted array is not the list
of previously active entities. -/
theorem compaction_drops_active_zero_health :
    cleanup_web_entities [activeZeroHealth] = [] ∧
    activeZeroHealth.active = true ∧
    List.filter (fun e => e.active) [activeZeroHealth] = [activeZeroHealth] := by
  refine ⟨?_, rfl, by simp [activeZeroHealth]⟩
  simp [cleanup_web_entities, activeZeroHealth]

/-- Claim C3 (amended): compaction produces exactly the surviving
entities in their original relative order with the count set to the
number of survivors, where a survivor is an active entity in 18.c and
an active entity with positive health in 1.8. -/
theorem compaction_keeps_survivors_in_order (es : List Entity18) (ws : List WebEntity8) :
    cleanup_inactive_entities es = es.filter (fun e => e.active) ∧
    cleanup_web_entities ws = ws.filter (fun e => e.active && decide (0 < e.health)) := by
  constructor
  · simpa [cleanup_inactive_entities] using cleanup18_foldl_eq_filter es []
  · simpa [cleanup_web_entities] using cleanup8_foldl_eq_filter ws []

/-- Counterexample to claim C4: at quality level Low (0) the 1.12 tick
applies no system at all — in particular a physics pass that would
change the state is never invoked, so physics integration does not run
at every quality level. -/
theorem quality_gating_low_physics_cex :
    update_systems_112 (fun n : ℕ => n + 1) id id 0 0 = 0 ∧
    (fun n : ℕ => n + 1) 0 ≠ 0 := by
  constructor
  · rfl
  · decide

/-- Claim C4 (amended): in the 1.8 variant the gating table holds as
stated (physics at every level, AI and collision at Medium and High,
particles only at High); in the 1.12 variant physics integration is
gated together with collision and runs only at Medium and High, not at
Low. -/
theorem quality_gating_per_variant {α : Type} (phys ai coll part : α → α) (s : α) :
    update_systems_18 phys ai coll part 0 s = phys s ∧
    update_systems_18 phys ai coll part 1 s = coll (ai (phys s)) ∧
    update_systems_18 phys ai coll part 2 s = part (coll (ai (phys s))) ∧
    update_systems_112 phys coll part 0 s = s ∧
    update_systems_112 phys coll part 1 s = coll (phys s) ∧
    update_systems_112 phys coll part 2 s = part (coll (phys s)) := by
  refine ⟨?_, ?_, ?_, ?_, ?_, ?_⟩ <;>
    norm_num [update_systems_18, update_systems_112]

/-- Claim C5: with adaptive quality enabled, a positive cooldown leaves
the quality level unchanged and only decrements the counter; and
whenever the governor changes the level it moves it by exactly one
step. -/
theorem governor_cooldown_and_single_step (a : Bool) (cd q : ℤ) (f : ℚ) :
    (a = true → 0 < cd → update_adaptive_quality a cd q f = (q, cd - 1)) ∧
    ((update_adaptive_quality a cd q f).1 = q ∨
     (update_adaptive_quality a cd q f).1 = q - 1 ∨
     (update_adaptive_quality a cd q f).1 = q + 1) := by
  constructor
  · intro ha hcd
    simp only [update_adaptive_quality, if_neg (show ¬ (a = false) by simp [ha]),
               if_pos hcd]
  · by_cases h0 : a = false
    · have he : update_adaptive_quality a cd q f = (q, cd) := by
        simp only [update_adaptive_quality, if_pos h0]
      rw [he]
      exact Or.inl rfl
    · by_cases h1 : 0 < cd
      · have he : update_adaptive_quality a cd q f = (q, cd - 1) := by
          simp only [update_adaptive_quality, if_neg h0, if_pos h1]
        rw [he]
        exact Or.inl rfl
      · by_cases h2 : f > (1667/100 : ℚ) * (12/10)
        · by_cases h3 : 0 < q
          · have he : update_adaptive_quality a cd q f = (q - 1, 60) := by
              simp only [update_adaptive_quality, if_neg h0, if_neg h1, if_pos h2,
                         if_pos h3]
            rw [he]
            exact Or.inr (Or.inl rfl)
          · have he : update_adaptive_quality a cd q f = (q, cd) := by
              simp only [update_adaptive_quality, if_neg h0, if_neg h1, if_pos h2,
                         if_neg h3]
            rw [he]
            exact Or.inl rfl
        · by_cases h4 : f < (1667/100 : ℚ) * (7/10)
          · by_cases h5 : q < 2
            · have he : update_adaptive_quality a cd q f = (q + 1, 180) := by
                simp only [update_adaptive_quality, if_neg h0, if_neg h1, if_neg h2,
                           if_pos h4, if_pos h5]
              rw [he]
              exact Or.inr (Or.inr rfl)
            · have he : update_adaptive_quality a cd q f = (q, cd) := by
                simp only [update_adaptive_quality, if_neg h0, if_neg h1, if_neg h2,
                           if_pos h4, if_neg h5]
              rw [he]
              exact Or.inl rfl
          · have he : update_adaptive_quality a cd q f = (q, cd) := by
              simp only [update_adaptive_quality, if_neg h0, if_neg h1, if_neg h2,
                         if_neg h4]
            rw [he]
            exact Or.inl rfl

/-- Witness for C5: cooldown 5 at level 1 only ticks down to 4. -/
theorem governor_cooldown_witness :
    update_adaptive_quality true 5 1 20 = (1, 4) := by
  have h := (governor_cooldown_and_single_step true 5 1 20).1 rfl (by norm_num)
  simpa using h

/-- Claim C6 (code bug in 18.c): for a pair of active entities at the
same position the collision threshold fires (distance 0 < 32) and the
response divides the center difference by the zero distance with no
epsilon guard, so a NaN is written into both velocities (the embedded
division returns `none`). -/
theorem collision_zero_distance_nan :
    collision_response_18 nanPlayer nanObject 0 = none ∧
    (0:ℚ) * 0 = (nanPlayer.x - nanObject.x)^2 + (nanPlayer.y - nanObject.y)^2 ∧
    (0:ℚ) < 32 ∧ nanPlayer.active = true ∧ nanObject.active = true := by
  refine ⟨rfl, ?_, by norm_num, rfl, rfl⟩
  show (0:ℚ) * 0 = ((100:ℚ) - 100) ^ 2 + ((100:ℚ) - 100) ^ 2
  norm_num

/-- Counterexample to claim C7: in 18.c a colliding pair whose second
entity is the player does not score — only the name of the first
(lower-index) entity is checked. -/
theorem score_second_player_cex :
    (collision_response_18 pairFirstObject pairSecondPlayer 5).map (fun r => r.2.2)
        = some 0 ∧
    pairSecondPlayer.name = "Player" ∧
    (5:ℚ) * 5 = (pairFirstObject.x - pairSecondPlayer.x)^2
        + (pairFirstObject.y - pairSecondPlayer.y)^2 ∧
    (5:ℚ) < 32 := by
  refine ⟨rfl, rfl, ?_, by norm_num⟩
  show (5:ℚ) * 5 = ((0:ℚ) - 3) ^ 2 + ((0:ℚ) - 4) ^ 2
  norm_num

/-- Claim C7 (amended): in the 1.8 variant a resolved pair scores the
fixed reward 10 exactly when either entity carries the `"Player"` tag;
in the 18.c variant a resolved pair scores 10 exactly when the first
(lower-index) entity of the pair is named `"Player"`, regardless of the
second. -/
theorem score_on_player_tag (a b : WebEntity8) (c d : Entity18) (dist dist2 : ℚ)
    (h1 : dist > 1/10) (h2 : dist2 ≠ 0) (h3 : dist2 < 32) :
    (resolve_pair_web8 a b dist).2.2
        = (if a.tag = "Player" ∨ b.tag = "Player" then 10 else 0) ∧
    (collision_response_18 c d dist2).map (fun r => r.2.2)
        = some (if c.name = "Player" then 10 else 0) := by
  constructor
  · unfold resolve_pair_web8
    rw [if_pos h1]
  · simp [collision_response_18, safeDiv, h2, h3]

/-- Witness for C7: a player-tagged pair scores 10 in both variants at
distance 5. -/
theorem score_on_player_tag_witness :
    (resolve_pair_web8 taggedPlayer taggedDefault 5).2.2 = 10 ∧
    (collision_response_18 firstPlayer secondObject 5).map (fun r => r.2.2)
        = some 10 := by
  have h := score_on_player_tag taggedPlayer taggedDefault firstPlayer secondObject
    5 5 (by norm_num) (by norm_num) (by norm_num)
  constructor
  · rw [h.1]
    simp [taggedPlayer, mkWebEntity8]
  · rw [h.2]
    simp [firstPlayer, mkEntity18]

/-- Helper for the per-particle step: an inactive particle is returned
untouched (the continue in the loop). -/
theorem particle_step_inactive (dt : ℚ) (p : WebParticle) (h : p.active = false) :
    update_web_particle_step dt p = p := by
  simp only [update_web_particle_step, if_pos h]

/-- Helper for the per-particle step: an active particle whose life
drops to at most zero is deactivated, its life is the decremented
value, and its size and alpha are untouched. -/
theorem particle_step_deactivated (dt : ℚ) (p : WebParticle) (h : p.active = true)
    (hl : p.life - dt ≤ 0) :
    (update_web_particle_step dt p).active = false ∧
    (update_web_particle_step dt p).size = p.size ∧
    (update_web_particle_step dt p).c3 = p.c3 ∧
    (update_web_particle_step dt p).life = p.life - dt := by
  simp only [update_web_particle_step, if_neg (show ¬ (p.active = false) by simp [h]),
             if_pos hl]
  exact ⟨trivial, trivial, trivial, trivial⟩

/-- Helper for the per-particle step: an active particle whose life
stays positive keeps the decremented life. -/
theorem particle_step_survived (dt : ℚ) (p : WebParticle) (h : p.active = true)
    (hl : ¬ (p.life - dt ≤ 0)) :
    (update_web_particle_step dt p).life = p.life - dt := by
  simp only [update_web_particle_step, if_neg (show ¬ (p.active = false) by simp [h]),
             if_neg hl]

/-- Claim C8: within one particle-system tick with nonnegative
delta-time, the remaining life never increases; an inactive particle is
excluded from all processing; and a particle whose life drops to zero
or below is deactivated immediately, with no fade of its alpha and no
shrink of its size applied in that tick. -/
theorem particle_life_monotone (dt : ℚ) (p : WebParticle) (hdt : 0 ≤ dt) :
    (update_web_particle_step dt p).life ≤ p.life ∧
    (p.active = false → update_web_particle_step dt p = p) ∧
    (p.active = true → p.life - dt ≤ 0 →
      (update_web_particle_step dt p).active = false ∧
      (update_web_particle_step dt p).size = p.size ∧
      (update_web_particle_step dt p).c3 = p.c3) := by
  refine ⟨?_, fun h => particle_step_inactive dt p h,
         fun ha hl => ⟨(particle_step_deactivated dt p ha hl).1,
                       (particle_step_deactivated dt p ha hl).2.1,
                       (particle_step_deactivated dt p ha hl).2.2.1⟩⟩
  cases hb : p.active with
  | false =>
      rw [particle_step_inactive dt p hb]
  | true =>
      by_cases hl : p.life - dt ≤ 0
      · rw [(particle_step_deactivated dt p hb hl).2.2.2]
        linarith
      · rw [particle_step_survived dt p hb hl]
        linarith

/-- Witness for C8: a particle with 0.5 s of life ticked with a 1 s
delta is deactivated with its size untouched. -/
theorem particle_life_monotone_witness :
    (update_web_particle_step 1 shortLivedParticle).life ≤ shortLivedParticle.life ∧
    (update_web_particle_step 1 shortLivedParticle).active = false ∧
    (update_web_particle_step 1 shortLivedParticle).size = shortLivedParticle.size := by
  have h := particle_life_monotone 1 shortLivedParticle (by norm_num)
  refine ⟨h.1, ?_, ?_⟩
  · exact (h.2.2 rfl (by norm_num [shortLivedParticle])).1
  · exact (h.2.2 rfl (by norm_num [shortLivedParticle])).2.1

/-- Helper for the separation algebra: pushing one entity forward and
the other back by the same offset keeps the coordinate sum. -/
theorem mid_sum (x y m : ℚ) : x + m + (y - m) = x + y := by
  rw [add_assoc, add_comm m (y - m), sub_add_cancel]

/-- Helper for the separation algebra: the two displacements are exact
opposites. -/
theorem mid_opp (x y m : ℚ) : x + m - x = -(y - m - y) := by
  rw [add_sub_cancel_left, sub_sub_cancel_left, neg_neg]

/-- Helper for the separation algebra: a vector of squared length
`d * d` scaled by `(1 / d) * S` has squared length `S ^ 2`. -/
theorem half_overlap_sq (u v d S : ℚ) (hd : d * (1 / d) = 1)
    (hsq : d * d = u ^ 2 + v ^ 2) :
    (u * (1 / d) * S) ^ 2 + (v * (1 / d) * S) ^ 2 = S ^ 2 := by
  have h1 : (u * (1 / d) * S) ^ 2 = u ^ 2 * ((1 / d) ^ 2 * S ^ 2) := by
    rw [mul_pow, mul_pow, mul_assoc]
  have h2 : (v * (1 / d) * S) ^ 2 = v ^ 2 * ((1 / d) ^ 2 * S ^ 2) := by
    rw [mul_pow, mul_pow, mul_assoc]
  rw [h1, h2, ← add_mul, ← hsq, pow_two (1 / d), ← mul_assoc, mul_mul_mul_comm,
      hd, one_mul, one_mul]

/-- Claim C9: for a resolved pair past the epsilon guard whose supplied
distance is the true center distance, each entity moves by half the
overlap, in exactly opposite directions, so the midpoint of the two
positions is unchanged by the positional resolution. -/
theorem collision_midpoint_preserved (a b : WebEntity8) (dist : ℚ)
    (hguard : dist > 1/10)
    (hsq : dist * dist = (a.px - b.px)^2 + (a.py - b.py)^2) :
    (resolve_pair_web8 a b dist).1.px + (resolve_pair_web8 a b dist).2.1.px
        = a.px + b.px ∧
    (resolve_pair_web8 a b dist).1.py + (resolve_pair_web8 a b dist).2.1.py
        = a.py + b.py ∧
    (resolve_pair_web8 a b dist).1.px - a.px
        = -((resolve_pair_web8 a b dist).2.1.px - b.px) ∧
    (resolve_pair_web8 a b dist).1.py - a.py
        = -((resolve_pair_web8 a b dist).2.1.py - b.py) ∧
    ((resolve_pair_web8 a b dist).1.px - a.px)^2
        + ((resolve_pair_web8 a b dist).1.py - a.py)^2 = ((28 - dist) / 2)^2 := by
  have hd : dist ≠ 0 := by
    intro h
    rw [h] at hguard
    norm_num at hguard
  have hinv : dist * (1 / dist) = 1 := mul_one_div_cancel hd
  unfold resolve_pair_web8
  rw [if_pos hguard]
  refine ⟨?_, ?_, ?_, ?_, ?_⟩
  · exact mid_sum a.px b.px ((a.px - b.px) * (1 / dist) * ((28 - dist) * (1 / 2)))
  · exact mid_sum a.py b.py ((a.py - b.py) * (1 / dist) * ((28 - dist) * (1 / 2)))
  · exact mid_opp a.px b.px ((a.px - b.px) * (1 / dist) * ((28 - dist) * (1 / 2)))
  · exact mid_opp a.py b.py ((a.py - b.py) * (1 / dist) * ((28 - dist) * (1 / 2)))
  · show (a.px + (a.px - b.px) * (1 / dist) * ((28 - dist) * (1 / 2)) - a.px) ^ 2
        + (a.py + (a.py - b.py) * (1 / dist) * ((28 - dist) * (1 / 2)) - a.py) ^ 2
        = ((28 - dist) / 2) ^ 2
    rw [add_sub_cancel_left, add_sub_cancel_left, mul_one_div (28 - dist) 2]
    exact half_overlap_sq (a.px - b.px) (a.py - b.py) dist ((28 - dist) / 2) hinv hsq

/-- Witness for C9 at positions (0,0) and (3,4), distance 5. -/
theorem collision_midpoint_witness :
    (resolve_pair_web8 midpointA midpointB 5).1.px
        + (resolve_pair_web8 midpointA midpointB 5).2.1.px
        = midpointA.px + midpointB.px ∧
    ((resolve_pair_web8 midpointA midpointB 5).1.px - midpointA.px)^2
        + ((resolve_pair_web8 midpointA midpointB 5).1.py - midpointA.py)^2
        = ((28 - 5) / 2)^2 := by
  have h := collision_midpoint_preserved midpointA midpointB 5 (by norm_num)
    (by show (5:ℚ) * 5 = ((0:ℚ) - 3) ^ 2 + ((0:ℚ) - 4) ^ 2; norm_num)
  exact ⟨h.1, h.2.2.2.2⟩

/-- Claim C10: every read-only snapshot accessor called with no
allocated game state returns its fixed fallback instead of failing:
zero for score, entity count, particle count, FPS and frame time, and
the initial quality level 2 for the quality accessor. -/
theorem snapshot_null_defaults :
    wasm_get_web_score none = 0 ∧
    wasm_get_web_entity_count none = 0 ∧
    wasm_get_web_particle_count none = 0 ∧
    wasm_get_web_fps none = 0 ∧
    wasm_get_web_frame_time none = 0 ∧
    wasm_get_web_quality_level none = 2 ∧
    wasm_get_score_18 none = 0 ∧
    wasm_get_entity_count_18 none = 0 ∧
    wasm_get_score_112 none = 0 :=
  ⟨rfl, rfl, rfl, rfl, rfl, rfl, rfl, rfl, rfl⟩

end Deplauncher
